import Mathlib

/-!
Verification of the postgres-mcp repository: the connection registry
(server/config.py, server/tools/connection.py) and the client-side SQL
extraction pipeline (example-clients/ollama_cli.py).

Python strings are modelled as `List Char`; the Python string operations
used by the code (`in`, `find`, `split`, `strip`, `upper`, `startswith`,
slicing) are given executable definitions below.
-/

namespace PgMcp

/-- A Python string, modelled as a list of characters. -/
abbrev Str := List Char

/-- Python whitespace characters recognised by `str.strip()`. -/
def isSpaceB (c : Char) : Bool :=
  c == ' ' || c == '\t' || c == '\n' || c == '\r' || c == Char.ofNat 11 || c == Char.ofNat 12

/-- Python `s.strip()`: remove leading and trailing whitespace. -/
def pyStrip (s : Str) : Str :=
  ((s.dropWhile isSpaceB).reverse.dropWhile isSpaceB).reverse

/-- Python `s.upper()` (ASCII, character by character). -/
def pyUpper (s : Str) : Str :=
  s.map Char.toUpper

/-- Python `s.find(pat)` restricted to a found result: the least index at
which `pat` occurs in `s`, or `none` (Python returns `-1`). -/
def pyFind (pat : Str) : Str → Option Nat
  | [] => if pat.isEmpty then some 0 else none
  | c :: cs =>
    if pat.isPrefixOf (c :: cs) then some 0
    else (pyFind pat cs).map (· + 1)

/-- Python `pat in s`: substring containment. -/
def containsB (pat s : Str) : Bool :=
  (pyFind pat s).isSome

/-- Fuel-driven worker for `pySplit`. -/
def pySplitAux (sep : Str) : Nat → Str → List Str
  | 0, s => [s]
  | fuel + 1, s =>
    match pyFind sep s with
    | none => [s]
    | some i => s.take i :: pySplitAux sep fuel (s.drop (i + sep.length))

/-- Python `s.split(sep)` for a non-empty separator: split on each
non-overlapping occurrence of `sep`, left to right, keeping empty pieces. -/
def pySplit (sep s : Str) : List Str :=
  pySplitAux sep (s.length + 1) s

/-- The markdown fence marker. -/
def fence : Str := "```".toList

/-- The SQL-tagged fence opener. -/
def fenceSql : Str := "```sql".toList

/-- The leading language tag removed by the generic-fenced-block strategy. -/
def sqlTag : Str := "sql\n".toList

/-- Blank-line end marker. -/
def nlNl : Str := "\n\n".toList

/-- Period-then-newline end marker. -/
def dotNl : Str := ".\n".toList

/-- Keyword list checked by strategy 2, in source order. -/
def kws2 : List Str :=
  ["SELECT".toList, "WITH".toList, "CREATE".toList, "INSERT".toList,
   "UPDATE".toList, "DELETE".toList]

/-- Keyword list scanned by strategy 3, in source (priority) order. -/
def kws3 : List Str :=
  ["WITH".toList, "SELECT".toList, "CREATE".toList, "INSERT".toList,
   "UPDATE".toList, "DELETE".toList]

/-- Strategy 1 of `extract_sql_from_response` (ollama_cli.py lines 154-161):
if the text contains a fence opener tagged `sql` and the text after it
contains a closing fence at a positive offset, return the text strictly
between them, stripped.  A closing fence at offset zero falls through. -/
def strategy1 (t : Str) : Option Str :=
  match pyFind fenceSql t with
  | none => none
  | some p =>
    let remaining := t.drop (p + 6)
    match pyFind fence remaining with
    | none => none
    | some q => if 0 < q then some (pyStrip (remaining.take q)) else none

/-- Body applied to each odd-position block by strategy 2: strip the block,
remove a leading literal `sql` tag line if present, and accept the block
when it contains one of the SQL keywords case-insensitively. -/
def processBlock (b : Str) : Option Str :=
  let b1 := pyStrip b
  let b2 := if sqlTag.isPrefixOf b1 then pyStrip (b1.drop 4) else b1
  if kws2.any (fun k => containsB k (pyUpper b2)) then some b2 else none

/-- The `for i in range(1, len(code_blocks), 2)` loop of strategy 2,
driven by a fuel argument so that it is structurally recursive; the
caller passes enough fuel for the loop to run to completion. -/
def strategy2Aux (blocks : List Str) : Nat → Nat → Option Str
  | 0, _ => none
  | fuel + 1, i =>
    if h : i < blocks.length then
      match processBlock (blocks.get ⟨i, h⟩) with
      | some r => some r
      | none => strategy2Aux blocks fuel (i + 2)
    else none

/-- Strategy 2 of `extract_sql_from_response` (ollama_cli.py lines 163-175):
split on fence markers and scan the blocks at odd indices, provided at
least one complete code block exists (three or more pieces). -/
def strategy2 (t : Str) : Option Str :=
  if containsB fence t then
    let blocks := pySplit fence t
    if 3 ≤ blocks.length then strategy2Aux blocks blocks.length 1 else none
  else none

/-- One pass of the end-marker loop of strategy 3: if the marker occurs,
cut just before its first occurrence and strip. -/
def truncAt (marker q : Str) : Str :=
  match pyFind marker q with
  | some p => pyStrip (q.take p)
  | none => q

/-- The end-marker loop of strategy 3, applied in source order:
blank line, then fence marker, then period-then-newline. -/
def truncMarkers (q : Str) : Str :=
  truncAt dotNl (truncAt fence (truncAt nlNl q))

/-- The keyword loop of strategy 3: for the first keyword occurring in the
uppercased text, take the suffix from its first occurrence, strip it, and
run the end-marker loop. -/
def kwScan : List Str → Str → Option Str
  | [], _ => none
  | k :: ks, t =>
    match pyFind k (pyUpper t) with
    | some p => some (truncMarkers (pyStrip (t.drop p)))
    | none => kwScan ks t

/-- Strategy 3 of `extract_sql_from_response` (ollama_cli.py lines 177-189):
bare keyword scan over the raw text. -/
def strategy3 (t : Str) : Option Str :=
  kwScan kws3 t

/-- `extract_sql_from_response` (ollama_cli.py lines 142-191): the three
strategies tried in order, first returning strategy wins. -/
def extract_sql_from_response (t : Str) : Option Str :=
  match strategy1 t with
  | some r => some r
  | none =>
    match strategy2 t with
    | some r => some r
    | none => strategy3 t

/-- The post-extraction steps of `generate_sql_with_ollama` (ollama_cli.py
lines 109-124): fail on a missing or empty extraction, otherwise strip and
append a terminating semicolon when absent. -/
def pipeline (t : Str) : Option Str :=
  match extract_sql_from_response t with
  | none => none
  | some q =>
    if q.isEmpty then none
    else
      let q1 := pyStrip q
      some (if [';'].isSuffixOf q1 then q1 else q1 ++ [';'])

/-! ### Connection registry (server side)

`server/tools/connection.py` manipulates the global database manager's
`_connection_map` (connection ID to connection string), `_reverse_map`
(connection string to connection ID) and its per-string pools.  Python
dictionaries are modelled as association lists with unique keys; removing
a key is modelled as filtering it out. -/

/-- Python `del d[k]` / `d.pop(k, None)` on the dictionary model. -/
def eraseKey (k : String) (m : List (String × String)) : List (String × String) :=
  m.filter (fun p => p.1 != k)

/-- The global database manager: both dictionaries, the set of connection
strings with a live pool, and a counter used to generate fresh IDs. -/
structure Database where
  connection_map : List (String × String)
  reverse_map : List (String × String)
  pools : List String
  next_id : Nat
deriving DecidableEq

/-- Modelled from the spec: `server/database.py` is not among the sources;
section 4.1 specifies `registerConnection(connectionString) -> id` as:
if the string already has an entry, return its existing ID and create no
new pool; otherwise allocate a pool, generate a fresh unique ID, store
both directions of the mapping, and return the new ID. -/
def register_connection (db : Database) (connection_string : String) : String × Database :=
  match db.reverse_map.lookup connection_string with
  | some conn_id => (conn_id, db)
  | none =>
    let conn_id := "conn-" ++ toString db.next_id
    (conn_id,
      { connection_map := (conn_id, connection_string) :: db.connection_map
        reverse_map := (connection_string, conn_id) :: db.reverse_map
        pools := connection_string :: db.pools
        next_id := db.next_id + 1 })

/-- The `connect` tool (server/tools/connection.py lines 11-31): delegate
to `register_connection` and return the resulting connection ID. -/
def connect (db : Database) (connection_string : String) : String × Database :=
  register_connection db connection_string

/-- Modelled from the spec: `Database.close` lives in the missing
`server/database.py`; section 4.1 specifies `close(id)` as closing the
pool of the corresponding connection string.  The map entries themselves
are removed by the `disconnect` tool below, as in the source. -/
def Database.close (db : Database) (conn_id : String) : Database :=
  match db.connection_map.lookup conn_id with
  | some s => { db with pools := db.pools.filter (fun t => t != s) }
  | none => db

/-- Result record of the `disconnect` tool. -/
structure DisconnectResult where
  success : Bool
  error : Option String
deriving DecidableEq

/-- The `disconnect` tool (server/tools/connection.py lines 33-54): report
`Unknown connection ID` for an unregistered ID; otherwise close the pool,
pop the `conn_id` entry, and delete the reverse entry when present.
`Database.close` is modelled as non-failing, so the handler's exception
branch is unreachable here. -/
def disconnect (db : Database) (conn_id : String) : DisconnectResult × Database :=
  if (db.connection_map.lookup conn_id).isSome then
    let db1 := db.close conn_id
    let connection_string := db1.connection_map.lookup conn_id
    let db2 := { db1 with connection_map := eraseKey conn_id db1.connection_map }
    match connection_string with
    | some s =>
      if (db2.reverse_map.lookup s).isSome then
        (⟨true, none⟩, { db2 with reverse_map := eraseKey s db2.reverse_map })
      else
        (⟨true, none⟩, db2)
    | none => (⟨true, none⟩, db2)
  else
    (⟨false, some "Unknown connection ID"⟩, db)

/-! ### Application lifespan (server/config.py) -/

/-- The process-wide server state: the global database manager plus the
flag recording whether `mcp.state` has been pointed at it. -/
structure World where
  db : Database
  state_set : Bool
deriving DecidableEq

/-- Startup half of `app_lifespan` (server/config.py lines 13-22):
publish the global database manager in `mcp.state`. -/
def app_lifespan_enter (w : World) : World :=
  { w with state_set := true }

/-- Teardown half of `app_lifespan` (server/config.py lines 23-26): the
`finally` block only logs; it deliberately does not close any DB pool. -/
def app_lifespan_exit (w : World) : World :=
  w

/-- The events that can act on the process-wide state. -/
inductive ServerOp where
  | opConnect (connection_string : String)
  | opDisconnect (conn_id : String)
  | opLifespanEnd
deriving DecidableEq

/-- How each event transforms the process-wide state. -/
def applyOp (w : World) : ServerOp → World
  | .opConnect s => { w with db := (connect w.db s).2 }
  | .opDisconnect conn_id => { w with db := (disconnect w.db conn_id).2 }
  | .opLifespanEnd => app_lifespan_exit w

/-! ### Client orchestration (example-clients/ollama_cli.py, `main`)

The effectful steps of `main` are modelled by an environment fixing each
step's outcome.  `connect_to_database` and `generate_sql_with_ollama`
catch all their exceptions internally, so they always deliver a value;
`execute_query` calls `session.call_tool` outside any local handler, so
it can also raise, which `main`'s outer handler turns into a bare
non-zero exit. -/

/-- The result dictionary delivered by `generate_sql_with_ollama`. -/
structure GenOutcome where
  success : Bool
  sql : Str
deriving DecidableEq

/-- Outcomes of the effectful steps of one run of `main`. -/
structure ClientEnv where
  conn : Option String
  gen : GenOutcome
  exec : Except String (List String)

/-- What a run of `main` is observed to do: its exit code and whether a
`disconnect` tool call was issued for the acquired handle. -/
structure MainResult where
  exitCode : Nat
  disconnected : Bool
deriving DecidableEq

/-- The orchestration of `main` (ollama_cli.py lines 306-365) after the
environment checks: failed connect exits 1; a generation failure or an
empty generated statement disconnects and exits 1; an exception raised
while executing the query propagates to the outer handler, which exits 1
without disconnecting; otherwise results are printed, the client
disconnects and exits 0. -/
def main (env : ClientEnv) : MainResult :=
  match env.conn with
  | none => ⟨1, false⟩
  | some _ =>
    if env.gen.success = false then ⟨1, true⟩
    else if env.gen.sql.isEmpty then ⟨1, true⟩
    else
      match env.exec with
      | .error _ => ⟨1, false⟩
      | .ok _ => ⟨0, true⟩

/-- The first keyword of the priority list that occurs in the uppercased
text: this is the keyword strategy 3 settles on. -/
def firstPresentKw (u : Str) : Option Str :=
  kws3.find? (fun k => containsB k u)

/-- Every second element of a list, starting with the first. -/
def evens {α : Type} : List α → List α
  | [] => []
  | [a] => [a]
  | a :: _ :: rest => a :: evens rest

/-- The elements of a list sitting at odd positions. -/
def oddIdx {α : Type} (l : List α) : List α :=
  evens (l.drop 1)

/-- The consistency invariant tying the pool table to the reverse map:
exactly the registered connection strings carry a pool, one each. -/
def Inv (db : Database) : Prop :=
  db.pools = db.reverse_map.map Prod.fst ∧ (db.reverse_map.map Prod.fst).Nodup

/-- An empty registry, the state of the manager at process start. -/
def dbEmpty : Database := ⟨[], [], [], 0⟩

/-- A registry holding exactly one registered connection. -/
def dbW : Database := ⟨[("c1", "postgres://a")], [("postgres://a", "c1")], ["postgres://a"], 1⟩

/-- A server state around the one-connection registry. -/
def wW : World := ⟨dbW, true⟩

/-- Model text holding both a fenced SQL block and a bare keyword. -/
def tC2 : Str := "Note SELECT here ```sql\nSELECT 1;\n``` done".toList

/-- The fenced-block scenario input from the specification. -/
def tC3 : Str := "```sql\nSELECT 1;\n```".toList

/-- A SQL-tagged opener immediately followed by its closing fence. -/
def tC3cex : Str := "```sql``` SELECT 1;".toList

/-- A fenced block carrying a non-SQL language tag. -/
def tC4cex : Str := "```py\nSELECT 1\n```".toList

/-- The bare-keyword scenario input from the specification. -/
def tC5 : Str := "Sure! SELECT * FROM t\n\nLet me know if that helps.".toList

/-- A suffix in which a period-newline occurrence straddles the blank
line at which the code truncates first. -/
def tC5cex : Str := "SELECT 1.\n\nrest".toList

/-- A fenced SQL block whose content contains no SQL keyword. -/
def tC6cex : Str := "```sql\nfoo\n```".toList

/-- Client environment in which query execution raises. -/
def envCE : ClientEnv := ⟨some "c1", ⟨true, "SELECT 1;".toList⟩, Except.error "network failure"⟩

/-- Client environment in which every step succeeds. -/
def envOK : ClientEnv := ⟨some "c1", ⟨true, "SELECT 1;".toList⟩, Except.ok []⟩

example : extract_sql_from_response "```sql\nSELECT 1;\n```".toList =
    some "SELECT 1;".toList := by decide

example : extract_sql_from_response "Sure! SELECT * FROM t\n\nLet me know if that helps.".toList =
    some "SELECT * FROM t".toList := by decide

example : pipeline "Sure! SELECT * FROM t\n\nLet me know if that helps.".toList =
    some "SELECT * FROM t;".toList := by decide

/-! ### Helper lemmas about the string operations -/

theorem prefix_of_pyFind_some {pat t : Str} {i : Nat} (h : pyFind pat t = some i) :
    pat <+: t.drop i := by
  induction t generalizing i with
  | nil =>
    unfold pyFind at h
    split at h
    · cases h
      simp_all [List.isEmpty_iff]
    · cases h
  | cons c cs ih =>
    unfold pyFind at h
    split at h
    · cases h
      exact List.isPrefixOf_iff_prefix.1 (by assumption)
    · rcases Option.map_eq_some'.1 h with ⟨j, hj, rfl⟩
      simpa using ih hj

theorem pyFind_isSome_of_prefix_drop {pat t : Str} {i : Nat} (h : pat <+: t.drop i) :
    (pyFind pat t).isSome := by
  induction t generalizing i with
  | nil =>
    simp only [List.drop_nil] at h
    simp [pyFind, List.isEmpty_iff, List.prefix_nil.1 h]
  | cons c cs ih =>
    match i with
    | 0 =>
      simp only [List.drop_zero] at h
      simp [pyFind, List.isPrefixOf_iff_prefix.2 h]
    | j + 1 =>
      simp only [List.drop_succ_cons] at h
      unfold pyFind
      split
      · simp
      · simpa using ih h

theorem prefix_pyFind_zero {pat t : Str} (h : pat <+: t) :
    pyFind pat t = some 0 := by
  cases t with
  | nil => simp [pyFind, List.isEmpty_iff, List.prefix_nil.1 h]
  | cons c cs => simp [pyFind, List.isPrefixOf_iff_prefix.2 h]

theorem containsB_of_prefix_found {pat q t : Str} {i : Nat}
    (hq : q <+: pat) (h : pyFind pat t = some i) : containsB q t = true := by
  have h1 : pat <+: t.drop i := prefix_of_pyFind_some h
  have h2 : q <+: t.drop i := hq.trans h1
  simpa [containsB] using pyFind_isSome_of_prefix_drop h2

theorem pyFind_fenceSql_none {t : Str} (h : containsB fence t = false) :
    pyFind fenceSql t = none := by
  cases hf : pyFind fenceSql t with
  | none => rfl
  | some p =>
    have : containsB fence t = true :=
      containsB_of_prefix_found ⟨"sql".toList, rfl⟩ hf
    rw [h] at this
    cases this

theorem pyFind_eq_none_of_not_contains {pat t : Str} (h : containsB pat t = false) :
    pyFind pat t = none := by
  cases hf : pyFind pat t with
  | none => rfl
  | some p => simp [containsB, hf] at h

/-- If a marker does not occur, the end-marker pass leaves the text alone. -/
theorem truncAt_of_not_contains {marker q : Str} (h : containsB marker q = false) :
    truncAt marker q = q := by
  unfold truncAt
  rw [pyFind_eq_none_of_not_contains h]

theorem strategy1_none_of_fence_free {t : Str} (h : containsB fence t = false) :
    strategy1 t = none := by
  unfold strategy1
  rw [pyFind_fenceSql_none h]

theorem strategy2_none_of_fence_free {t : Str} (h : containsB fence t = false) :
    strategy2 t = none := by
  simp [strategy2, h]

/-- Strategy 1 preempts the later strategies whenever it fires: the first
SQL-tagged opener with a closing fence at a positive offset decides the
overall result. -/
theorem extract_of_strategy1 {t : Str} {p q : Nat}
    (h1 : pyFind fenceSql t = some p)
    (h2 : pyFind fence (t.drop (p + 6)) = some q)
    (h3 : 0 < q) :
    extract_sql_from_response t = some (pyStrip ((t.drop (p + 6)).take q)) := by
  unfold extract_sql_from_response strategy1
  rw [h1]
  simp only [h2, if_pos h3]

/-- The keyword loop returns the suffix at the first occurrence of the
first present keyword, stripped and passed through the end-marker loop. -/
theorem kwScan_eq_of_find {ks : List Str} {t k : Str} {p : Nat}
    (hfind : ks.find? (fun x => containsB x (pyUpper t)) = some k)
    (hp : pyFind k (pyUpper t) = some p) :
    kwScan ks t = some (truncMarkers (pyStrip (t.drop p))) := by
  induction ks with
  | nil => simp at hfind
  | cons x xs ih =>
    rw [List.find?_cons] at hfind
    by_cases hx : containsB x (pyUpper t) = true
    · rw [hx] at hfind
      cases hfind
      unfold kwScan
      rw [hp]
    · rw [Bool.not_eq_true] at hx
      rw [hx] at hfind
      have hnone : pyFind x (pyUpper t) = none := pyFind_eq_none_of_not_contains hx
      unfold kwScan
      rw [hnone]
      exact ih hfind

theorem evens_cons {α : Type} (a : α) (l : List α) :
    evens (a :: l) = a :: evens (l.drop 1) := by
  cases l <;> rfl

theorem pySplit_of_not_contains {sep t : Str} (h : containsB sep t = false) :
    pySplit sep t = [t] := by
  unfold pySplit pySplitAux
  rw [pyFind_eq_none_of_not_contains h]

/-- The index loop of strategy 2 visits exactly every second block from
its starting index, provided it is given enough fuel. -/
theorem strategy2Aux_eq (blocks : List Str) :
    ∀ (fuel i : Nat), blocks.length ≤ fuel + i →
      strategy2Aux blocks fuel i = (evens (blocks.drop i)).findSome? processBlock := by
  intro fuel
  induction fuel with
  | zero =>
    intro i h
    have hd : blocks.drop i = [] := List.drop_eq_nil_of_le (by omega)
    simp [strategy2Aux, hd, evens]
  | succ fuel ih =>
    intro i h
    unfold strategy2Aux
    by_cases hi : i < blocks.length
    · rw [dif_pos hi]
      have hd : blocks.drop i = blocks.get ⟨i, hi⟩ :: blocks.drop (i + 1) :=
        List.drop_eq_getElem_cons hi
      have hdd : (blocks.drop (i + 1)).drop 1 = blocks.drop (i + 2) := by
        rw [List.drop_drop]
      rw [hd, evens_cons, List.findSome?_cons, hdd]
      cases hpb : processBlock (blocks.get ⟨i, hi⟩) with
      | some r => rfl
      | none => exact ih (i + 2) (by omega)
    · rw [dif_neg hi]
      have hd : blocks.drop i = [] := List.drop_eq_nil_of_le (by omega)
      simp [hd, evens]

/-! ### Helper lemmas about the registry model -/

theorem lookup_none_not_mem {l : List (String × String)} {s : String}
    (h : l.lookup s = none) : s ∉ l.map Prod.fst := by
  induction l with
  | nil => simp
  | cons p rest ih =>
    obtain ⟨k, b⟩ := p
    rw [List.lookup_cons] at h
    by_cases hks : s = k
    · subst hks
      simp at h
    · have : (s == k) = false := beq_eq_false_iff_ne.2 hks
      rw [this] at h
      simpa [hks] using ih h

theorem lookup_eraseKey_self (k : String) (m : List (String × String)) :
    (eraseKey k m).lookup k = none := by
  induction m with
  | nil => rfl
  | cons p rest ih =>
    obtain ⟨a, b⟩ := p
    unfold eraseKey at ih ⊢
    by_cases hak : a = k
    · subst hak
      simpa using ih
    · have h1 : (a != k) = true := bne_iff_ne.2 hak
      have h2 : (k == a) = false := beq_eq_false_iff_ne.2 (Ne.symm hak)
      simp only [List.filter_cons, h1, if_pos]
      rw [List.lookup_cons, h2]
      exact ih

theorem close_connection_map (db : Database) (conn_id : String) :
    (db.close conn_id).connection_map = db.connection_map := by
  unfold Database.close
  split <;> rfl

/-! ### The claims -/

/-- C1: registering the same connection string a second time through the
`connect` operation returns the ID of the first registration and leaves
the registry unchanged, so no second pool is created; and on a consistent
registry the result again satisfies the dedup invariant — at most one
pool per distinct connection string. -/
theorem connect_dedup (db : Database) (s : String) (hInv : Inv db) :
    (connect (connect db s).2 s).1 = (connect db s).1
    ∧ (connect (connect db s).2 s).2 = (connect db s).2
    ∧ Inv (connect db s).2
    ∧ ∀ u, ((connect db s).2).pools.count u ≤ 1 := by
  cases h : db.reverse_map.lookup s with
  | some cid =>
    have hcount : ∀ u, db.pools.count u ≤ 1 := by
      intro u
      rw [hInv.1]
      exact List.nodup_iff_count_le_one.1 hInv.2 u
    simp only [connect, register_connection, h]
    exact ⟨trivial, trivial, hInv, hcount⟩
  | none =>
    have hmem : s ∉ db.reverse_map.map Prod.fst := lookup_none_not_mem h
    have hInv1 : Inv
        { connection_map := ("conn-" ++ toString db.next_id, s) :: db.connection_map
          reverse_map := (s, "conn-" ++ toString db.next_id) :: db.reverse_map
          pools := s :: db.pools
          next_id := db.next_id + 1 } := by
      refine ⟨?_, ?_⟩
      · simp [hInv.1]
      · simp only [List.map_cons]
        exact List.nodup_cons.2 ⟨hmem, hInv.2⟩
    simp only [connect, register_connection, h, List.lookup_cons, beq_self_eq_true]
    refine ⟨trivial, trivial, hInv1, ?_⟩
    intro u
    have h1 : s :: db.pools =
        ((s, "conn-" ++ toString db.next_id) :: db.reverse_map).map Prod.fst := hInv1.1
    rw [h1]
    exact List.nodup_iff_count_le_one.1 hInv1.2 u

/-- C2: when the text contains a complete SQL-tagged fenced block — a
first `sql` opener at `p` whose following text closes at a positive
offset `q` — and a bare SQL keyword occurs somewhere in the text, the
extraction returns the fenced content (stripped), not the bare-keyword
suffix: the fenced strategy is tried first and wins. -/
theorem extract_priority_fenced_wins (t : Str) (p q : Nat)
    (h1 : pyFind fenceSql t = some p)
    (h2 : pyFind fence (t.drop (p + 6)) = some q)
    (h3 : 0 < q)
    (_h4 : ∃ k ∈ kws3, containsB k (pyUpper t) = true) :
    extract_sql_from_response t = some (pyStrip ((t.drop (p + 6)).take q)) :=
  extract_of_strategy1 h1 h2 h3

/-- Witness for C2 at a text containing both a fenced block and the bare
keyword `SELECT` in the prose around it. -/
theorem extract_priority_fenced_wins_witness :
    pyFind fenceSql tC2 = some 17
    ∧ pyFind fence (tC2.drop 23) = some 11
    ∧ (0:Nat) < 11
    ∧ (∃ k ∈ kws3, containsB k (pyUpper tC2) = true)
    ∧ extract_sql_from_response tC2 = some (pyStrip ((tC2.drop 23).take 11))
    ∧ pyStrip ((tC2.drop 23).take 11) = "SELECT 1;".toList :=
  ⟨by decide, by decide, by decide, ⟨"SELECT".toList, by decide, by decide⟩,
    extract_priority_fenced_wins tC2 17 11 (by decide) (by decide) (by decide)
      ⟨"SELECT".toList, by decide, by decide⟩,
    by decide⟩

/-- C3 counterexample: with the opener immediately followed by the
closing fence, the text strictly between them is empty and the code does
not return it; it falls through to the bare-keyword scan instead. -/
theorem fenced_sql_strict_between_cex :
    pyFind fenceSql tC3cex = some 0
    ∧ pyFind fence (tC3cex.drop 6) = some 0
    ∧ extract_sql_from_response tC3cex = some "SELECT 1;".toList
    ∧ extract_sql_from_response tC3cex ≠ some (pyStrip ((tC3cex.drop 6).take 0)) :=
  ⟨by decide, by decide, by decide, by decide⟩

/-- C3 amended: when the first SQL-tagged opener is followed by a closing
fence with at least one character strictly between them, the extraction
returns exactly the text strictly between them, trimmed. -/
theorem fenced_sql_strict_between (t : Str) (p q : Nat)
    (h1 : pyFind fenceSql t = some p)
    (h2 : pyFind fence (t.drop (p + 6)) = some q)
    (h3 : 0 < q) :
    extract_sql_from_response t = some (pyStrip ((t.drop (p + 6)).take q)) :=
  extract_of_strategy1 h1 h2 h3

/-- Witness for C3 at the specification's scenario input, returning
`SELECT 1;`. -/
theorem fenced_sql_strict_between_witness :
    pyFind fenceSql tC3 = some 0
    ∧ pyFind fence (tC3.drop 6) = some 11
    ∧ extract_sql_from_response tC3 = some (pyStrip ((tC3.drop 6).take 11))
    ∧ pyStrip ((tC3.drop 6).take 11) = "SELECT 1;".toList :=
  ⟨by decide, by decide,
    fenced_sql_strict_between tC3 0 11 (by decide) (by decide) (by decide),
    by decide⟩

/-- C4 counterexample: the generic-fenced-block strategy leaves a non-SQL
language tag line in place — only the literal `sql` tag is stripped — so
the block is returned with its `py` tag line, not as bare `SELECT 1`. -/
theorem generic_block_tag_cex :
    strategy2 tC4cex = some "py\nSELECT 1".toList
    ∧ extract_sql_from_response tC4cex = some "py\nSELECT 1".toList
    ∧ extract_sql_from_response tC4cex ≠ some "SELECT 1".toList :=
  ⟨by decide, by decide, by decide⟩

/-- C4 amended: whenever splitting on fence markers yields at least three
blocks (at least one complete fenced pair), the generic-fenced-block
strategy equals the first-hit scan over the blocks at odd positions,
where each block is stripped, loses a leading literal `sql` tag line if
present, and is accepted iff it contains one of the SQL keywords
case-insensitively. -/
theorem generic_block_odd_scan (t : Str) (h : 3 ≤ (pySplit fence t).length) :
    strategy2 t = (oddIdx (pySplit fence t)).findSome? processBlock := by
  have hc : containsB fence t = true := by
    by_contra hcf
    rw [Bool.not_eq_true] at hcf
    rw [pySplit_of_not_contains hcf] at h
    simp at h
  simp only [strategy2, hc, if_true]
  rw [if_pos h]
  exact strategy2Aux_eq (pySplit fence t) (pySplit fence t).length 1 (by omega)

/-- Witness for C4 at a three-block split. -/
theorem generic_block_odd_scan_witness :
    3 ≤ (pySplit fence tC4cex).length
    ∧ strategy2 tC4cex = (oddIdx (pySplit fence tC4cex)).findSome? processBlock :=
  ⟨by decide, generic_block_odd_scan tC4cex (by decide)⟩

/-- C5 counterexample: in `SELECT 1.\n\nrest` the first end marker in the
suffix is the period-newline at offset 8, before the blank line at
offset 9, so the claim predicts `SELECT 1`; the code truncates at the
blank line first, which destroys the period-newline occurrence, and
returns `SELECT 1.`. -/
theorem bare_keyword_first_marker_cex :
    pyFind dotNl tC5cex = some 8
    ∧ pyFind nlNl tC5cex = some 9
    ∧ extract_sql_from_response tC5cex = some "SELECT 1.".toList
    ∧ extract_sql_from_response tC5cex ≠ some "SELECT 1".toList :=
  ⟨by decide, by decide, by decide, by decide⟩

/-- C5 amended: on fence-free text in which some keyword occurs, with `k`
the first present keyword in priority order and `p` its first occurrence
in the uppercased text, the extraction returns the stripped suffix from
`p` truncated by applying, in order, the blank-line cut, then the fence
cut, then the period-newline cut, re-stripping after each. -/
theorem bare_keyword_sequential_trunc (t k : Str) (p : Nat)
    (hf : containsB fence t = false)
    (hk : firstPresentKw (pyUpper t) = some k)
    (hp : pyFind k (pyUpper t) = some p) :
    extract_sql_from_response t =
      some (truncAt dotNl (truncAt fence (truncAt nlNl (pyStrip (t.drop p))))) := by
  simp only [extract_sql_from_response, strategy1_none_of_fence_free hf,
    strategy2_none_of_fence_free hf]
  exact kwScan_eq_of_find hk hp

/-- Witness for C5 at the specification's scenario input; the truncated
suffix is `SELECT * FROM t` and post-processing appends the semicolon. -/
theorem bare_keyword_sequential_trunc_witness :
    containsB fence tC5 = false
    ∧ firstPresentKw (pyUpper tC5) = some "SELECT".toList
    ∧ pyFind "SELECT".toList (pyUpper tC5) = some 6
    ∧ extract_sql_from_response tC5 =
        some (truncAt dotNl (truncAt fence (truncAt nlNl (pyStrip (tC5.drop 6)))))
    ∧ truncAt dotNl (truncAt fence (truncAt nlNl (pyStrip (tC5.drop 6)))) =
        "SELECT * FROM t".toList
    ∧ pipeline tC5 = some "SELECT * FROM t;".toList :=
  ⟨by decide, by decide, by decide,
    bare_keyword_sequential_trunc tC5 "SELECT".toList 6 (by decide) (by decide) (by decide),
    by decide, by decide⟩

/-- C6 counterexample: the pipeline succeeds on a fenced block whose
content has no SQL keyword, producing the canonical output `foo;`, but
feeding that output back in fails — no strategy matches it — so the
pipeline is not idempotent on all of its own outputs. -/
theorem pipeline_idempotent_cex :
    pipeline tC6cex = some "foo;".toList
    ∧ pipeline "foo;".toList = none :=
  ⟨by decide, by decide⟩

/-- C6 amended: the pipeline is idempotent on those canonical outputs
(trimmed, semicolon-terminated, fence-free) that contain an SQL keyword,
start (uppercased) with the first keyword of the priority order that
occurs in them, and contain no blank line and no period-newline — which
covers every output the bare-keyword strategy itself produces. -/
theorem pipeline_idempotent_canonical (s k : Str)
    (h1 : pyStrip s = s)
    (h2 : [';'].isSuffixOf s = true)
    (h3 : containsB fence s = false)
    (h4 : containsB nlNl s = false)
    (h5 : containsB dotNl s = false)
    (hk : firstPresentKw (pyUpper s) = some k)
    (hpre : k.isPrefixOf (pyUpper s) = true) :
    pipeline s = some s := by
  have hpre2 : k <+: pyUpper s := List.isPrefixOf_iff_prefix.1 hpre
  have hp : pyFind k (pyUpper s) = some 0 := prefix_pyFind_zero hpre2
  have ht : truncMarkers s = s := by
    unfold truncMarkers
    rw [truncAt_of_not_contains h4, truncAt_of_not_contains h3, truncAt_of_not_contains h5]
  have hextract : extract_sql_from_response s = some s := by
    simp only [extract_sql_from_response, strategy1_none_of_fence_free h3,
      strategy2_none_of_fence_free h3]
    have hscan := kwScan_eq_of_find hk hp
    rw [List.drop_zero, h1, ht] at hscan
    exact hscan
  have hne : s ≠ [] := by
    intro he
    rw [he] at h2
    exact absurd h2 (by decide)
  have hie : s.isEmpty = false := by
    cases s
    · exact absurd rfl hne
    · rfl
  unfold pipeline
  rw [hextract]
  simp only [hie, Bool.false_eq_true, if_false, h1, h2, if_true]

/-- Witness for C6 at the canonical statement `SELECT 1;`. -/
theorem pipeline_idempotent_canonical_witness :
    pyStrip "SELECT 1;".toList = "SELECT 1;".toList
    ∧ [';'].isSuffixOf "SELECT 1;".toList = true
    ∧ containsB fence "SELECT 1;".toList = false
    ∧ containsB nlNl "SELECT 1;".toList = false
    ∧ containsB dotNl "SELECT 1;".toList = false
    ∧ firstPresentKw (pyUpper "SELECT 1;".toList) = some "SELECT".toList
    ∧ "SELECT".toList.isPrefixOf (pyUpper "SELECT 1;".toList) = true
    ∧ pipeline "SELECT 1;".toList = some "SELECT 1;".toList :=
  ⟨by decide, by decide, by decide, by decide, by decide, by decide, by decide,
    pipeline_idempotent_canonical "SELECT 1;".toList "SELECT".toList
      (by decide) (by decide) (by decide) (by decide) (by decide) (by decide) (by decide)⟩

/-- C7 counterexample: with the handle acquired and SQL generated, an
exception raised during query execution reaches `main`'s outer handler,
which exits non-zero without issuing a disconnect — the handle leaks on
this failure path. -/
theorem main_disconnect_cex :
    envCE.conn = some "c1"
    ∧ (main envCE).exitCode = 1
    ∧ (main envCE).disconnected = false :=
  ⟨by decide, by decide, by decide⟩

/-- C7 amended: once a handle is acquired, the structured failure paths
(SQL-generation failure, empty generated statement) and the success path
all issue a disconnect; the only way the run ends without the disconnect
being issued is an exception raised while executing the query. -/
theorem main_disconnect_iff (env : ClientEnv) (cid : String) (h : env.conn = some cid) :
    (main env).disconnected = false ↔
      (env.gen.success = true ∧ env.gen.sql ≠ []
        ∧ ∃ msg, env.exec = Except.error msg) := by
  unfold main
  rw [h]
  cases hgen : env.gen.success with
  | false => simp [hgen]
  | true =>
    cases hsql : env.gen.sql with
    | nil => simp [hsql]
    | cons a l =>
      cases hex : env.exec with
      | error msg => simp [hsql, hex]
      | ok rows => simp [hsql, hex]

/-- Witness for C7 at the all-successful environment, where the iff holds
with both sides false. -/
theorem main_disconnect_iff_witness :
    envOK.conn = some "c1"
    ∧ ((main envOK).disconnected = false ↔
        (envOK.gen.success = true ∧ envOK.gen.sql ≠ []
          ∧ ∃ msg, envOK.exec = Except.error msg)) :=
  ⟨rfl, main_disconnect_iff envOK "c1" rfl⟩

/-- The not-registered branch of the `disconnect` tool. -/
theorem disconnect_not_found {db : Database} {conn_id : String}
    (h : db.connection_map.lookup conn_id = none) :
    disconnect db conn_id = (⟨false, some "Unknown connection ID"⟩, db) := by
  simp [disconnect, h]

/-- A successful `disconnect` removes the connection-map entry and
reports success. -/
theorem disconnect_found (db : Database) (conn_id : String)
    (hin : (db.connection_map.lookup conn_id).isSome = true) :
    ((disconnect db conn_id).2).connection_map = eraseKey conn_id db.connection_map
    ∧ (disconnect db conn_id).1 = ⟨true, none⟩ := by
  simp only [disconnect, hin, if_true]
  cases hcs : (db.close conn_id).connection_map.lookup conn_id with
  | some s2 =>
    by_cases hrv : ((eraseKey conn_id (db.close conn_id).connection_map,
        (db.close conn_id).reverse_map).2.lookup s2).isSome = true
    · simp [hcs, hrv, close_connection_map]
    · simp [hcs, hrv, close_connection_map]
  | none =>
    simp [hcs, close_connection_map]

/-- C8: disconnecting an unregistered connection ID returns the failure
record `{success: false, error: "Unknown connection ID"}` and leaves the
registry unchanged; consequently a second disconnect right after a
successful one returns exactly that failure record. -/
theorem disconnect_unknown_id (db : Database) (conn_id : String) :
    (db.connection_map.lookup conn_id = none →
      disconnect db conn_id = (⟨false, some "Unknown connection ID"⟩, db))
    ∧ (∀ r db1, disconnect db conn_id = (r, db1) → r.success = true →
        disconnect db1 conn_id = (⟨false, some "Unknown connection ID"⟩, db1)) := by
  constructor
  · intro h
    exact disconnect_not_found h
  · intro r db1 hd hs
    by_cases hin : (db.connection_map.lookup conn_id).isSome = true
    · have h1 : db1.connection_map = eraseKey conn_id db.connection_map := by
        have h0 := (disconnect_found db conn_id hin).1
        rw [hd] at h0
        exact h0
      have h2 : db1.connection_map.lookup conn_id = none := by
        rw [h1]
        exact lookup_eraseKey_self conn_id db.connection_map
      exact disconnect_not_found h2
    · have hnone : db.connection_map.lookup conn_id = none := by
        cases ho : db.connection_map.lookup conn_id with
        | none => rfl
        | some v =>
          rw [ho] at hin
          exact absurd rfl hin
      rw [disconnect_not_found hnone] at hd
      cases hd
      cases hs

/-- Witness for C8: disconnecting the registered `c1` succeeds and empties
the registry; the theorem then forces the second disconnect to return the
failure record. -/
theorem disconnect_unknown_id_witness :
    disconnect dbW "c1" = (⟨true, none⟩, ⟨[], [], [], 1⟩)
    ∧ disconnect ⟨[], [], [], 1⟩ "c1" =
        (⟨false, some "Unknown connection ID"⟩, ⟨[], [], [], 1⟩) :=
  ⟨by decide,
    (disconnect_unknown_id dbW "c1").2 ⟨true, none⟩ ⟨[], [], [], 1⟩ (by decide) rfl⟩

/-- C9: the end of an application lifespan leaves the registry's pools
exactly as they were, and across all modelled events only an explicit
disconnect can remove a pool. -/
theorem lifespan_keeps_pools (w : World) :
    (applyOp w ServerOp.opLifespanEnd).db.pools = w.db.pools
    ∧ ∀ (op : ServerOp) (s : String), s ∈ w.db.pools →
        s ∉ (applyOp w op).db.pools → ∃ conn_id, op = ServerOp.opDisconnect conn_id := by
  refine ⟨rfl, ?_⟩
  intro op s hin hout
  cases op with
  | opConnect cs =>
    exfalso
    apply hout
    cases h : w.db.reverse_map.lookup cs with
    | some cid =>
      simp only [applyOp, connect, register_connection, h]
      exact hin
    | none =>
      simp only [applyOp, connect, register_connection, h]
      exact List.mem_cons_of_mem _ hin
  | opDisconnect cid => exact ⟨cid, rfl⟩
  | opLifespanEnd => exact absurd hin hout

/-- Witness for C9: in the one-connection world, the event that removes
the pool of `postgres://a` is indeed a disconnect. -/
theorem lifespan_keeps_pools_witness :
    "postgres://a" ∈ wW.db.pools
    ∧ "postgres://a" ∉ (applyOp wW (ServerOp.opDisconnect "c1")).db.pools
    ∧ ∃ conn_id, ServerOp.opDisconnect "c1" = ServerOp.opDisconnect conn_id :=
  ⟨by decide, by decide,
    (lifespan_keeps_pools wW).2 (ServerOp.opDisconnect "c1") "postgres://a"
      (by decide) (by decide)⟩

/-- C10: keyword matching in the bare-keyword strategy is plain substring
matching with no word-boundary check: on `I am without any ideas`, which
contains no SQL, the extraction still returns a result, starting at the
`with` inside `without` (offset 5). -/
theorem bare_keyword_substring_match :
    extract_sql_from_response "I am without any ideas".toList =
      some "without any ideas".toList
    ∧ "without any ideas".toList = ("I am without any ideas".toList).drop 5
    ∧ extract_sql_from_response "I am without any ideas".toList ≠ none :=
  ⟨by decide, by decide, by decide⟩

/-- Witness for C1: on the empty registry, registering `postgres://a`
twice returns the same ID, leaves the state fixed after the first call,
and keeps at most one pool per string. -/
theorem connect_dedup_witness :
    Inv dbEmpty
    ∧ ((connect (connect dbEmpty "postgres://a").2 "postgres://a").1 =
          (connect dbEmpty "postgres://a").1
        ∧ (connect (connect dbEmpty "postgres://a").2 "postgres://a").2 =
          (connect dbEmpty "postgres://a").2
        ∧ Inv (connect dbEmpty "postgres://a").2
        ∧ ∀ u, ((connect dbEmpty "postgres://a").2).pools.count u ≤ 1) :=
  ⟨⟨rfl, List.nodup_nil⟩,
    connect_dedup dbEmpty "postgres://a" ⟨rfl, List.nodup_nil⟩⟩

end PgMcp
